import Mathlib

/-!
Verification of the Foodgram backend (src/backend/foodgram/api/serializers.py
and views.py) against its natural-language specification.

The database is embedded shallowly: each relational table is a list of rows,
and each API operation is an explicit state-passing function translated from
the serializer/view code.  The Django model layer (recipes/models.py,
users/models.py) is not part of the given sources; the table shapes and the
foreign-key / unique constraints they declare are modelled from the spec's
description of "normalized relational tables" (a Subscription row is a
(user, author) pair, Favorite and ShoppingCart rows are (user, recipe)
pairs, RecipeIngredient is a (recipe, ingredient, amount) row).
-/

namespace Foodgram

/-- A row of the Ingredient table: primary key, name and measurement unit. -/
structure Ingredient where
  id : Nat
  name : String
  measurement_unit : String
deriving DecidableEq, Repr

/-- A row of the RecipeIngredient through-table: recipe id, ingredient id
and amount. -/
structure RecipeIngredient where
  recipe : Nat
  ingredient : Nat
  amount : Nat
deriving DecidableEq, Repr

/-- A row of the Recipe table.  `tags` is the recipe's many-to-many tag set
(tag ids).  The image field is irrelevant to every claim and omitted. -/
structure Recipe where
  id : Nat
  author : Nat
  name : String
  text : String
  cooking_time : Nat
  tags : List Nat
deriving DecidableEq, Repr

/-- The database state: one list per table.  `subs` holds Subscription rows
as (user, author) pairs, `favorites` holds Favorite rows as (user, recipe)
pairs, `carts` holds ShoppingCart rows as (user, recipe) pairs. -/
structure State where
  users : List Nat
  ingredients : List Ingredient
  recipes : List Recipe
  recipeIngredients : List RecipeIngredient
  subs : List (Nat × Nat)
  favorites : List (Nat × Nat)
  carts : List (Nat × Nat)
deriving DecidableEq, Repr

/-- HTTP-level outcome of an API operation. -/
inductive Resp where
  | created
  | noContent
  | badRequest (msg : String)
  | notFound
deriving DecidableEq, Repr

/-- True exactly on `Resp.badRequest`, the status a DRF ValidationError
produces. -/
def Resp.isBadRequest : Resp → Bool
  | .badRequest _ => true
  | _ => false

/-- `User.objects.filter(id=id).exists()`: the user id is present. -/
def userExists (st : State) (u : Nat) : Bool :=
  st.users.contains u

/-- `Recipe.objects.filter(id=pk).exists()`: the recipe id is present. -/
def recipeExists (st : State) (r : Nat) : Bool :=
  st.recipes.any (fun rec => rec.id = r)

/-- `Ingredient.objects.get(pk=i)`: lookup by primary key; `none` models the
DoesNotExist exception. -/
def findIngredient (st : State) (i : Nat) : Option Ingredient :=
  st.ingredients.find? (fun ing => ing.id = i)

/-! ## Subscribe / unsubscribe (`UserViewSet.subscribe`,
`UserSubscribeSerializer`) -/

/-- POST subscribe (views.py `UserViewSet.subscribe`, POST branch):
`get_object_or_404(User, id=id)`, then `UserSubscribeSerializer` runs its
`UniqueTogetherValidator` on (user, author) and then `validate`, which
rejects subscribing to oneself; on success a Subscription row is saved. -/
def subscribePost (st : State) (u a : Nat) : State × Resp :=
  if ¬ userExists st a then (st, .notFound)
  else if (u, a) ∈ st.subs then (st, .badRequest "already subscribed")
  else if u = a then (st, .badRequest "cannot subscribe to yourself")
  else ({ st with subs := (u, a) :: st.subs }, .created)

/-- DELETE subscribe (views.py `UserViewSet.subscribe`, DELETE branch):
404 when the author does not exist, 400 when no Subscription row exists,
otherwise the (user, author) row is deleted and 204 returned.  The code
deletes via `.get(...).delete()`, a single row; removing every matching
pair coincides with it whenever the table has at most one row per pair. -/
def subscribeDelete (st : State) (u a : Nat) : State × Resp :=
  if ¬ userExists st a then (st, .notFound)
  else if ¬ (u, a) ∈ st.subs then (st, .badRequest "not subscribed")
  else ({ st with subs := st.subs.filter (fun p => p ≠ (u, a)) }, .noContent)

/-! ## Favorite and shopping-cart add/remove
(`RecipeViewSet.favorite`, `RecipeViewSet.shopping_cart`,
`create_model_instance`, `delete_model_instance`,
`FavoriteSerializer`, `ShoppingCartSerializer`) -/

/-- POST favorite: `get_object_or_404(Recipe, id=pk)` then
`create_model_instance` with `FavoriteSerializer`, whose
`UniqueTogetherValidator` rejects a duplicate (user, recipe) pair. -/
def favoritePost (st : State) (u r : Nat) : State × Resp :=
  if ¬ recipeExists st r then (st, .notFound)
  else if (u, r) ∈ st.favorites then (st, .badRequest "already favorited")
  else ({ st with favorites := (u, r) :: st.favorites }, .created)

/-- DELETE favorite: `get_object_or_404(Recipe, id=pk)` then
`delete_model_instance` with the Favorite model: 400 when no row for the
(user, recipe) pair exists, otherwise `filter(user, recipe).delete()`. -/
def favoriteDelete (st : State) (u r : Nat) : State × Resp :=
  if ¬ recipeExists st r then (st, .notFound)
  else if ¬ (u, r) ∈ st.favorites then (st, .badRequest "not in favorites")
  else ({ st with favorites := st.favorites.filter (fun p => p ≠ (u, r)) },
        .noContent)

/-- POST shopping_cart: as `favoritePost` with the ShoppingCart table. -/
def shoppingCartPost (st : State) (u r : Nat) : State × Resp :=
  if ¬ recipeExists st r then (st, .notFound)
  else if (u, r) ∈ st.carts then (st, .badRequest "already in shopping cart")
  else ({ st with carts := (u, r) :: st.carts }, .created)

/-- DELETE shopping_cart: as `favoriteDelete` with the ShoppingCart table. -/
def shoppingCartDelete (st : State) (u r : Nat) : State × Resp :=
  if ¬ recipeExists st r then (st, .notFound)
  else if ¬ (u, r) ∈ st.carts then (st, .badRequest "not in shopping cart")
  else ({ st with carts := st.carts.filter (fun p => p ≠ (u, r)) },
        .noContent)

/-! ## Recipe validation (`RecipeCreateSerializer.validate`) -/

/-- Input to `RecipeCreateSerializer.validate`: the data dict, with `none`
for an absent key.  An ingredient entry is an (id, amount) pair. -/
structure RecipeInput where
  name : Option String
  text : Option String
  cooking_time : Option Nat
  tags : Option (List Nat)
  ingredients : Option (List (Nat × Nat))
deriving DecidableEq, Repr

/-- Python truthiness of `obj.get(field)` for a string field: false when the
key is absent or the string empty. -/
def truthyStr : Option String → Bool
  | none => false
  | some s => s ≠ ""

/-- Python truthiness for an integer field: false when absent or zero. -/
def truthyNat : Option Nat → Bool
  | none => false
  | some n => n ≠ 0

/-- Python truthiness for a list field: false when absent or empty. -/
def truthyList {α : Type} : Option (List α) → Bool
  | none => false
  | some l => !l.isEmpty

/-- `RecipeCreateSerializer.validate`: rejects falsy name, text and
cooking_time, an empty or absent tag or ingredient list, and a repeated
ingredient id (`len(ids) != len(set(ids))`); otherwise returns the input
unchanged. -/
def validateRecipe (obj : RecipeInput) : Except String RecipeInput :=
  if ¬ truthyStr obj.name then .error "name - required field"
  else if ¬ truthyStr obj.text then .error "text - required field"
  else if ¬ truthyNat obj.cooking_time then .error "cooking_time - required field"
  else if ¬ truthyList obj.tags then .error "need at least 1 tag"
  else if ¬ truthyList obj.ingredients then .error "need at least 1 ingredient"
  else
    let ids := (obj.ingredients.getD []).map Prod.fst
    if ids.length ≠ ids.dedup.length then .error "ingredients must be unique"
    else .ok obj

/-! ## Recipe create / update
(`RecipeCreateSerializer.create`, `.update`, `.tags_and_ingredients_set`) -/

/-- The list comprehension inside `tags_and_ingredients_set`: one
RecipeIngredient row per submitted (id, amount) entry, with
`Ingredient.objects.get(pk=id)`; `none` models the DoesNotExist exception
raised when some id has no Ingredient row. -/
def buildRecipeIngredientRows (st : State) (r : Nat) :
    List (Nat × Nat) → Option (List RecipeIngredient)
  | [] => some []
  | p :: rest =>
      match findIngredient st p.1, buildRecipeIngredientRows st r rest with
      | some ing, some rows => some (⟨r, ing.id, p.2⟩ :: rows)
      | _, _ => none

/-- `recipe.tags.set(tags)`: replace the recipe's tag set by the submitted
tags (the many-to-many through table keeps one row per distinct tag). -/
def setRecipeTags (st : State) (r : Nat) (tags : List Nat) : State :=
  { st with recipes := st.recipes.map (fun rcp =>
      if rcp.id = r then { rcp with tags := tags.dedup } else rcp) }

/-- `tags_and_ingredients_set(recipe, tags, ingredients)`: set the tags and
bulk-create the RecipeIngredient rows; `none` when an ingredient lookup
raises (the enclosing transaction then rolls everything back). -/
def tagsAndIngredientsSet (st : State) (r : Nat) (tags : List Nat)
    (ingredients : List (Nat × Nat)) : Option State :=
  match buildRecipeIngredientRows st r ingredients with
  | none => none
  | some rows =>
      let st' := setRecipeTags st r tags
      some { st' with recipeIngredients := st'.recipeIngredients ++ rows }

/-- Fresh primary key for `Recipe.objects.create`. -/
def freshRecipeId (st : State) : Nat :=
  (st.recipes.map (fun rcp => rcp.id)).foldr max 0 + 1

/-- `RecipeCreateSerializer.create`: pop tags and ingredients, create the
Recipe row, then `tags_and_ingredients_set`; `none` models the exception
path, under `transaction.atomic`. -/
def createRecipe (st : State) (author : Nat) (name text : String)
    (cooking_time : Nat) (tags : List Nat)
    (ingredients : List (Nat × Nat)) : Option State :=
  let rid := freshRecipeId st
  let st1 := { st with recipes :=
                 st.recipes ++ [⟨rid, author, name, text, cooking_time, []⟩] }
  tagsAndIngredientsSet st1 rid tags ingredients

/-- `transaction.atomic` around `create`: on an exception the database state
is rolled back to the pre-call state and no response body is produced. -/
def runCreateRecipe (st : State) (author : Nat) (name text : String)
    (cooking_time : Nat) (tags : List Nat)
    (ingredients : List (Nat × Nat)) : State × Bool :=
  match createRecipe st author name text cooking_time tags ingredients with
  | some st' => (st', true)
  | none => (st, false)

/-- `instance.ingredients.all()`: the distinct ingredient ids attached to
the recipe through its RecipeIngredient rows. -/
def attachedIngredientIds (st : State) (r : Nat) : List Nat :=
  ((st.recipeIngredients.filter (fun ri => ri.recipe = r)).map
     (fun ri => ri.ingredient)).dedup

/-- `RecipeCreateSerializer.update`: overwrite the scalar fields with
`validated_data.get(field, instance.field)`, delete the RecipeIngredient
rows `filter(recipe=instance, ingredient__in=instance.ingredients.all())`,
then `tags_and_ingredients_set`; `none` models the exception path, under
`transaction.atomic`. -/
def updateRecipe (st : State) (r : Nat) (name text : Option String)
    (cooking_time : Option Nat) (tags : List Nat)
    (ingredients : List (Nat × Nat)) : Option State :=
  let attached := attachedIngredientIds st r
  let st1 := { st with
    recipes := st.recipes.map (fun rcp =>
      if rcp.id = r then
        { rcp with
          name := name.getD rcp.name,
          text := text.getD rcp.text,
          cooking_time := cooking_time.getD rcp.cooking_time }
      else rcp),
    recipeIngredients := st.recipeIngredients.filter (fun ri =>
      ¬ (ri.recipe = r ∧ ri.ingredient ∈ attached)) }
  tagsAndIngredientsSet st1 r tags ingredients

/-- `transaction.atomic` around `update`: rolled back on an exception. -/
def runUpdateRecipe (st : State) (r : Nat) (name text : Option String)
    (cooking_time : Option Nat) (tags : List Nat)
    (ingredients : List (Nat × Nat)) : State × Bool :=
  match updateRecipe st r name text cooking_time tags ingredients with
  | some st' => (st', true)
  | none => (st, false)

/-- Recipe deletion through the model view set: the framework deletes the
Recipe row; the dependent RecipeIngredient, Favorite and ShoppingCart rows
disappear with it (cascading foreign keys of the model layer, which is not
among the given sources; modelled from the spec's normalized tables). -/
def deleteRecipe (st : State) (r : Nat) : State × Resp :=
  if ¬ recipeExists st r then (st, .notFound)
  else ({ st with
    recipes := st.recipes.filter (fun rcp => rcp.id ≠ r),
    recipeIngredients := st.recipeIngredients.filter (fun ri => ri.recipe ≠ r),
    favorites := st.favorites.filter (fun p => p.2 ≠ r),
    carts := st.carts.filter (fun p => p.2 ≠ r) }, .noContent)

/-! ## Subscriptions listing (`UserViewSet.subscriptions`) -/

/-- `User.objects.filter(following__user=request.user)`: the users that have
a Subscription row with them as author and the requester as user. -/
def subscriptionsList (st : State) (u : Nat) : List Nat :=
  st.users.filter (fun a => st.subs.contains (u, a))

/-! ## Shopping-cart aggregation (`RecipeViewSet.download_shopping_cart`) -/

/-- The joined rows behind
`RecipeIngredient.objects.filter(recipe__carts__user=user).values(
'ingredient__name', 'ingredient__measurement_unit')` together with the
amount: one (name, unit, amount) triple per RecipeIngredient row whose
recipe has a ShoppingCart row for the user (the cart table holds at most
one row per (user, recipe) pair, so the join duplicates nothing). -/
def cartRows (st : State) (u : Nat) : List (String × String × Nat) :=
  (st.recipeIngredients.filter (fun ri => st.carts.contains (u, ri.recipe))).filterMap
    (fun ri => (findIngredient st ri.ingredient).map
      (fun ing => (ing.name, ing.measurement_unit, ri.amount)))

/-- The grouped query `.values('ingredient__name',
'ingredient__measurement_unit').annotate(ingredient_amount=Sum('amount'))`:
one entry per distinct (name, unit) key, with the summed amount. -/
def downloadShoppingCart (st : State) (u : Nat) :
    List ((String × String) × Nat) :=
  let rows := cartRows st u
  ((rows.map (fun row => (row.1, row.2.1))).dedup).map
    (fun k => (k, ((rows.filter (fun row => (row.1, row.2.1) = k)).map
                     (fun row => row.2.2)).sum))

/-- Modelled from the claim's words, for comparison with
`downloadShoppingCart`: the sum of the amounts of all RecipeIngredient rows
whose recipe is in the user's cart and whose ingredient has the key's name
and measurement unit. -/
def claimedAmount (st : State) (u : Nat) (k : String × String) : Nat :=
  ((st.recipeIngredients.filter (fun ri =>
      st.carts.contains (u, ri.recipe) &&
      ((findIngredient st ri.ingredient).map
        (fun ing => (ing.name, ing.measurement_unit)) == some k))).map
    (fun ri => ri.amount)).sum

/-- A (name, unit) pair occurs in the user's cart: some RecipeIngredient
row of a cart recipe has an ingredient with that name and unit. -/
def keyOccurs (st : State) (u : Nat) (k : String × String) : Bool :=
  st.recipeIngredients.any (fun ri =>
    st.carts.contains (u, ri.recipe) &&
    ((findIngredient st ri.ingredient).map
      (fun ing => (ing.name, ing.measurement_unit)) == some k))

/-! ## Subscription representation
(`UserSubscribeRepresentSerializer.get_recipes`, `.get_recipes_count`) -/

/-- `obj.recipes.all()`: the recipes authored by the user. -/
def authorRecipes (st : State) (a : Nat) : List Recipe :=
  st.recipes.filter (fun rcp => rcp.author = a)

/-- `get_recipes`: all the author's recipes, truncated to the first
`recipes_limit` when the query parameter is present and non-empty (`none`
models an absent or empty parameter; a successful of the slice requires the
parsed integer to be non-negative, Django querysets reject negative
slices). -/
def get_recipes (st : State) (a : Nat) (recipes_limit : Option Nat) :
    List Recipe :=
  match recipes_limit with
  | none => authorRecipes st a
  | some n => (authorRecipes st a).take n

/-- `get_recipes_count`: `obj.recipes.count()`. -/
def get_recipes_count (st : State) (a : Nat) : Nat :=
  (authorRecipes st a).length

/-! ## Computed boolean fields (`UserGetSerializer.get_is_subscribed`,
`RecipeReadSerializer.get_is_favorited`, `.get_is_in_shopping_cart`).
`requester = none` models an unauthenticated request
(`request.user.is_authenticated` is false and the short-circuiting `and`
skips the table lookup). -/

/-- `get_is_subscribed`. -/
def get_is_subscribed (st : State) (requester : Option Nat) (obj : Nat) :
    Bool :=
  match requester with
  | none => false
  | some u => st.subs.contains (u, obj)

/-- `get_is_favorited`. -/
def get_is_favorited (st : State) (requester : Option Nat) (obj : Nat) :
    Bool :=
  match requester with
  | none => false
  | some u => st.favorites.contains (u, obj)

/-- `get_is_in_shopping_cart`. -/
def get_is_in_shopping_cart (st : State) (requester : Option Nat)
    (obj : Nat) : Bool :=
  match requester with
  | none => false
  | some u => st.carts.contains (u, obj)

/-! ## Invariants and claim-side predicates -/

/-- At most one row per pair in each of the three association tables:
the Subscription, Favorite and ShoppingCart row lists have no duplicate
(user, author) respectively (user, recipe) pairs. -/
def PairInv (st : State) : Prop :=
  st.subs.Nodup ∧ st.favorites.Nodup ∧ st.carts.Nodup

instance (st : State) : Decidable (PairInv st) := by
  unfold PairInv; infer_instance

/-- Modelled from the claim's words, for comparison with `validateRecipe`:
name missing or empty, text missing or empty, cooking_time missing or
zero, tag list missing or empty, ingredient list missing or empty, or two
ingredient entries with the same id. -/
def invalidInput (obj : RecipeInput) : Prop :=
  obj.name = none ∨ obj.name = some "" ∨
  obj.text = none ∨ obj.text = some "" ∨
  obj.cooking_time = none ∨ obj.cooking_time = some 0 ∨
  obj.tags = none ∨ obj.tags = some ([] : List Nat) ∨
  obj.ingredients = none ∨ obj.ingredients = some ([] : List (Nat × Nat)) ∨
  ¬ ((obj.ingredients.getD []).map Prod.fst).Nodup

instance (obj : RecipeInput) : Decidable (invalidInput obj) := by
  unfold invalidInput; infer_instance

/-! ## Sample database states used by the witnesses -/

/-- A small concrete database: three users, three ingredients (two sharing
a (name, unit) pair), two recipes with ingredient rows, one subscription,
one favorite, two cart entries. -/
def sampleState : State where
  users := [10, 11, 12]
  ingredients := [⟨1, "salt", "g"⟩, ⟨2, "salt", "g"⟩, ⟨3, "milk", "ml"⟩]
  recipes := [⟨100, 11, "r1", "t", 5, [7]⟩, ⟨101, 12, "r2", "t", 6, [8]⟩]
  recipeIngredients := [⟨100, 1, 3⟩, ⟨100, 3, 50⟩, ⟨101, 2, 4⟩, ⟨101, 3, 7⟩]
  subs := [(10, 11)]
  favorites := [(10, 100)]
  carts := [(10, 100), (10, 101)]

/-- The state `updateRecipe` produces on `sampleState` for recipe 100 with
tag list [9] and ingredient list [(2, 8)]. -/
def sampleUpdated : State :=
  (updateRecipe sampleState 100 none none none [9] [(2, 8)]).getD sampleState

/-! ## Helper lemmas -/

theorem truthyStr_eq_false (o : Option String) :
    truthyStr o = false ↔ o = none ∨ o = some "" := by
  cases o <;> simp [truthyStr]

theorem truthyNat_eq_false (o : Option Nat) :
    truthyNat o = false ↔ o = none ∨ o = some 0 := by
  cases o <;> simp [truthyNat]

theorem truthyList_eq_false {α : Type} (o : Option (List α)) :
    truthyList o = false ↔ o = none ∨ o = some [] := by
  cases o <;> simp [truthyList]

theorem length_eq_length_dedup_iff {α : Type} [DecidableEq α] (l : List α) :
    l.length = l.dedup.length ↔ l.Nodup := by
  constructor
  · intro h
    have h2 : l.dedup = l := (List.dedup_sublist l).eq_of_length h.symm
    rw [← h2]
    exact List.nodup_dedup l
  · intro h
    rw [List.dedup_eq_self.mpr h]

theorem findIngredient_id (st : State) (i : Nat) (ing : Ingredient)
    (h : findIngredient st i = some ing) : ing.id = i := by
  have := List.find?_some h
  simpa using this

/-! ## C10 -/

/-- C10: for an unauthenticated request (`requester = none`), the computed
fields `is_subscribed`, `is_favorited` and `is_in_shopping_cart` are false
for every object and every database state. -/
theorem C10_anonymous_flags_false (st : State) (obj : Nat) :
    get_is_subscribed st none obj = false ∧
    get_is_favorited st none obj = false ∧
    get_is_in_shopping_cart st none obj = false :=
  ⟨rfl, rfl, rfl⟩

/-! ## C9 -/

/-- C9: with a non-empty `recipes_limit` parameter of integer value n, the
`recipes` field is the first n of the author's recipes (hence at most n of
them), while `recipes_count` always equals the total number of the
author's recipes. -/
theorem C9_recipes_limit_truncates (st : State) (a n : Nat) :
    get_recipes st a (some n) = (authorRecipes st a).take n ∧
    (get_recipes st a (some n)).length ≤ n ∧
    get_recipes_count st a = (authorRecipes st a).length := by
  refine ⟨rfl, ?_, rfl⟩
  simp only [get_recipes, List.length_take]
  exact min_le_left _ _

/-! ## C5 -/

/-- C5: a subscribe request by an existing user naming themselves as the
author is answered with a validation error (status 400) and leaves the
database state unchanged. -/
theorem C5_self_subscribe_rejected (st : State) (u : Nat)
    (hu : userExists st u = true) :
    (subscribePost st u u).1 = st ∧
    ((subscribePost st u u).2).isBadRequest = true := by
  by_cases h2 : (u, u) ∈ st.subs
  · simp [subscribePost, hu, h2, Resp.isBadRequest]
  · simp [subscribePost, hu, h2, Resp.isBadRequest]

/-- Witness for C5 on `sampleState` with user 10. -/
theorem C5_self_subscribe_rejected_witness :
    userExists sampleState 10 = true ∧
    ((subscribePost sampleState 10 10).1 = sampleState ∧
     ((subscribePost sampleState 10 10).2).isBadRequest = true) :=
  ⟨by decide, C5_self_subscribe_rejected sampleState 10 (by decide)⟩

/-! ## C7 -/

/-- C7: under referential integrity of the Subscription table (every
author referenced by a row is an existing user), the subscriptions listing
for a user contains exactly the authors for which a Subscription row with
that user exists. -/
theorem C7_subscriptions_exact (st : State) (u : Nat)
    (href : ∀ p ∈ st.subs, p.2 ∈ st.users) :
    ∀ a : Nat, a ∈ subscriptionsList st u ↔ (u, a) ∈ st.subs := by
  intro a
  simp only [subscriptionsList, List.mem_filter, List.contains,
    List.elem_eq_mem, decide_eq_true_eq]
  constructor
  · exact fun h => h.2
  · exact fun h => ⟨href (u, a) h, h⟩

/-- Witness for C7 on `sampleState` with user 10: author 11 is listed,
author 12 is not. -/
theorem C7_subscriptions_exact_witness :
    (∀ p ∈ sampleState.subs, p.2 ∈ sampleState.users) ∧
    (∀ a : Nat, a ∈ subscriptionsList sampleState 10 ↔
      (10, a) ∈ sampleState.subs) :=
  ⟨by decide, C7_subscriptions_exact sampleState 10 (by decide)⟩

/-! ## C6 -/

/-- C6: for an existing recipe, a DELETE favorite (respectively
shopping-cart) request returns 400 and changes nothing when no row for the
(user, recipe) pair exists; otherwise it returns 204, removes exactly the
rows for that pair, and every other pair's membership is unchanged (no
other table is touched at all, as the resulting state record shows). -/
theorem C6_delete_favorite_cart (st : State) (u r : Nat)
    (hr : recipeExists st r = true) :
    (((u, r) ∉ st.favorites →
        favoriteDelete st u r = (st, Resp.badRequest "not in favorites")) ∧
     ((u, r) ∈ st.favorites →
        favoriteDelete st u r =
          ({ st with favorites := st.favorites.filter (fun p => p ≠ (u, r)) },
            Resp.noContent) ∧
        (u, r) ∉ (favoriteDelete st u r).1.favorites ∧
        ∀ p : Nat × Nat, p ≠ (u, r) →
          (p ∈ (favoriteDelete st u r).1.favorites ↔ p ∈ st.favorites))) ∧
    (((u, r) ∉ st.carts →
        shoppingCartDelete st u r = (st, Resp.badRequest "not in shopping cart")) ∧
     ((u, r) ∈ st.carts →
        shoppingCartDelete st u r =
          ({ st with carts := st.carts.filter (fun p => p ≠ (u, r)) },
            Resp.noContent) ∧
        (u, r) ∉ (shoppingCartDelete st u r).1.carts ∧
        ∀ p : Nat × Nat, p ≠ (u, r) →
          (p ∈ (shoppingCartDelete st u r).1.carts ↔ p ∈ st.carts))) := by
  constructor
  · constructor
    · intro h
      simp [favoriteDelete, hr, h]
    · intro h
      refine ⟨by simp [favoriteDelete, hr, h], ?_, ?_⟩
      · simp [favoriteDelete, hr, h, List.mem_filter]
      · intro p hp
        simp [favoriteDelete, hr, h, List.mem_filter, hp]
  · constructor
    · intro h
      simp [shoppingCartDelete, hr, h]
    · intro h
      refine ⟨by simp [shoppingCartDelete, hr, h], ?_, ?_⟩
      · simp [shoppingCartDelete, hr, h, List.mem_filter]
      · intro p hp
        simp [shoppingCartDelete, hr, h, List.mem_filter, hp]

/-- Witness for C6 on `sampleState`, user 10 and recipe 100 (favorited and
in the cart). -/
theorem C6_delete_favorite_cart_witness :
    recipeExists sampleState 100 = true ∧
    ((((10, 100) ∉ sampleState.favorites →
        favoriteDelete sampleState 10 100 =
          (sampleState, Resp.badRequest "not in favorites")) ∧
      ((10, 100) ∈ sampleState.favorites →
        favoriteDelete sampleState 10 100 =
          ({ sampleState with
              favorites := sampleState.favorites.filter (fun p => p ≠ (10, 100)) },
            Resp.noContent) ∧
        (10, 100) ∉ (favoriteDelete sampleState 10 100).1.favorites ∧
        ∀ p : Nat × Nat, p ≠ (10, 100) →
          (p ∈ (favoriteDelete sampleState 10 100).1.favorites ↔
            p ∈ sampleState.favorites))) ∧
     (((10, 100) ∉ sampleState.carts →
        shoppingCartDelete sampleState 10 100 =
          (sampleState, Resp.badRequest "not in shopping cart")) ∧
      ((10, 100) ∈ sampleState.carts →
        shoppingCartDelete sampleState 10 100 =
          ({ sampleState with
              carts := sampleState.carts.filter (fun p => p ≠ (10, 100)) },
            Resp.noContent) ∧
        (10, 100) ∉ (shoppingCartDelete sampleState 10 100).1.carts ∧
        ∀ p : Nat × Nat, p ≠ (10, 100) →
          (p ∈ (shoppingCartDelete sampleState 10 100).1.carts ↔
            p ∈ sampleState.carts)))) :=
  ⟨by decide, C6_delete_favorite_cart sampleState 10 100 (by decide)⟩

/-! ## C2 -/

theorem tagsAndIngredientsSet_pair_tables (st st' : State) (r : Nat)
    (tags : List Nat) (ingrs : List (Nat × Nat))
    (h : tagsAndIngredientsSet st r tags ingrs = some st') :
    st'.subs = st.subs ∧ st'.favorites = st.favorites ∧ st'.carts = st.carts := by
  unfold tagsAndIngredientsSet at h
  cases hb : buildRecipeIngredientRows st r ingrs with
  | none => rw [hb] at h; exact absurd h (by simp)
  | some rows =>
      rw [hb] at h
      cases h
      exact ⟨rfl, rfl, rfl⟩

theorem subscribePost_inv (st : State) (u a : Nat) (h : PairInv st) :
    PairInv (subscribePost st u a).1 := by
  by_cases h1 : userExists st a
  · by_cases h2 : (u, a) ∈ st.subs
    · simpa [subscribePost, h1, h2] using h
    · by_cases h3 : u = a
      · subst h3
        simpa [subscribePost, h1, h2] using h
      · simp only [subscribePost, h1, h2, h3]
        exact ⟨List.nodup_cons.mpr ⟨h2, h.1⟩, h.2.1, h.2.2⟩
  · simpa [subscribePost, h1] using h

theorem subscribeDelete_inv (st : State) (u a : Nat) (h : PairInv st) :
    PairInv (subscribeDelete st u a).1 := by
  by_cases h1 : userExists st a
  · by_cases h2 : (u, a) ∈ st.subs
    · simp only [subscribeDelete, h1, h2]
      exact ⟨h.1.filter _, h.2.1, h.2.2⟩
    · simpa [subscribeDelete, h1, h2] using h
  · simpa [subscribeDelete, h1] using h

theorem favoritePost_inv (st : State) (u r : Nat) (h : PairInv st) :
    PairInv (favoritePost st u r).1 := by
  by_cases h1 : recipeExists st r
  · by_cases h2 : (u, r) ∈ st.favorites
    · simpa [favoritePost, h1, h2] using h
    · simp only [favoritePost, h1, h2]
      exact ⟨h.1, List.nodup_cons.mpr ⟨h2, h.2.1⟩, h.2.2⟩
  · simpa [favoritePost, h1] using h

theorem favoriteDelete_inv (st : State) (u r : Nat) (h : PairInv st) :
    PairInv (favoriteDelete st u r).1 := by
  by_cases h1 : recipeExists st r
  · by_cases h2 : (u, r) ∈ st.favorites
    · simp only [favoriteDelete, h1, h2]
      exact ⟨h.1, h.2.1.filter _, h.2.2⟩
    · simpa [favoriteDelete, h1, h2] using h
  · simpa [favoriteDelete, h1] using h

theorem shoppingCartPost_inv (st : State) (u r : Nat) (h : PairInv st) :
    PairInv (shoppingCartPost st u r).1 := by
  by_cases h1 : recipeExists st r
  · by_cases h2 : (u, r) ∈ st.carts
    · simpa [shoppingCartPost, h1, h2] using h
    · simp only [shoppingCartPost, h1, h2]
      exact ⟨h.1, h.2.1, List.nodup_cons.mpr ⟨h2, h.2.2⟩⟩
  · simpa [shoppingCartPost, h1] using h

theorem shoppingCartDelete_inv (st : State) (u r : Nat) (h : PairInv st) :
    PairInv (shoppingCartDelete st u r).1 := by
  by_cases h1 : recipeExists st r
  · by_cases h2 : (u, r) ∈ st.carts
    · simp only [shoppingCartDelete, h1, h2]
      exact ⟨h.1, h.2.1, h.2.2.filter _⟩
    · simpa [shoppingCartDelete, h1, h2] using h
  · simpa [shoppingCartDelete, h1] using h

theorem runCreateRecipe_inv (st : State) (author : Nat) (name text : String)
    (ct : Nat) (tags : List Nat) (ingrs : List (Nat × Nat)) (h : PairInv st) :
    PairInv (runCreateRecipe st author name text ct tags ingrs).1 := by
  unfold runCreateRecipe
  cases hc : createRecipe st author name text ct tags ingrs with
  | none => exact h
  | some st' =>
      unfold createRecipe at hc
      obtain ⟨hs, hf, hcart⟩ := tagsAndIngredientsSet_pair_tables _ _ _ _ _ hc
      exact ⟨hs ▸ h.1, hf ▸ h.2.1, hcart ▸ h.2.2⟩

theorem runUpdateRecipe_inv (st : State) (r : Nat) (oname otext : Option String)
    (oct : Option Nat) (tags : List Nat) (ingrs : List (Nat × Nat))
    (h : PairInv st) :
    PairInv (runUpdateRecipe st r oname otext oct tags ingrs).1 := by
  unfold runUpdateRecipe
  cases hc : updateRecipe st r oname otext oct tags ingrs with
  | none => exact h
  | some st' =>
      unfold updateRecipe at hc
      obtain ⟨hs, hf, hcart⟩ := tagsAndIngredientsSet_pair_tables _ _ _ _ _ hc
      exact ⟨hs ▸ h.1, hf ▸ h.2.1, hcart ▸ h.2.2⟩

theorem deleteRecipe_inv (st : State) (r : Nat) (h : PairInv st) :
    PairInv (deleteRecipe st r).1 := by
  by_cases h1 : recipeExists st r
  · simp only [deleteRecipe, h1]
    exact ⟨h.1, h.2.1.filter _, h.2.2.filter _⟩
  · simpa [deleteRecipe, h1] using h

/-- C2: every operation preserves the at-most-one-row-per-pair invariant
of the Subscription, Favorite and ShoppingCart tables, and an attempt to
create a duplicate pair (against an existing target, as referential
integrity guarantees) is rejected with a validation error and leaves the
state unchanged. -/
theorem C2_pair_uniqueness (st : State) (u a r author rid : Nat)
    (name text : String) (ct : Nat) (oname otext : Option String)
    (oct : Option Nat) (tags : List Nat) (ingrs : List (Nat × Nat))
    (hinv : PairInv st) :
    PairInv (subscribePost st u a).1 ∧
    PairInv (subscribeDelete st u a).1 ∧
    PairInv (favoritePost st u r).1 ∧
    PairInv (favoriteDelete st u r).1 ∧
    PairInv (shoppingCartPost st u r).1 ∧
    PairInv (shoppingCartDelete st u r).1 ∧
    PairInv (runCreateRecipe st author name text ct tags ingrs).1 ∧
    PairInv (runUpdateRecipe st rid oname otext oct tags ingrs).1 ∧
    PairInv (deleteRecipe st rid).1 ∧
    (userExists st a = true → (u, a) ∈ st.subs →
      subscribePost st u a = (st, Resp.badRequest "already subscribed")) ∧
    (recipeExists st r = true → (u, r) ∈ st.favorites →
      favoritePost st u r = (st, Resp.badRequest "already favorited")) ∧
    (recipeExists st r = true → (u, r) ∈ st.carts →
      shoppingCartPost st u r = (st, Resp.badRequest "already in shopping cart")) := by
  refine ⟨subscribePost_inv st u a hinv, subscribeDelete_inv st u a hinv,
    favoritePost_inv st u r hinv, favoriteDelete_inv st u r hinv,
    shoppingCartPost_inv st u r hinv, shoppingCartDelete_inv st u r hinv,
    runCreateRecipe_inv st author name text ct tags ingrs hinv,
    runUpdateRecipe_inv st rid oname otext oct tags ingrs hinv,
    deleteRecipe_inv st rid hinv, ?_, ?_, ?_⟩
  · intro h1 h2
    simp [subscribePost, h1, h2]
  · intro h1 h2
    simp [favoritePost, h1, h2]
  · intro h1 h2
    simp [shoppingCartPost, h1, h2]

/-- Witness for C2 on `sampleState` (which satisfies the invariant), with
duplicate-creation targets that are already present. -/
theorem C2_pair_uniqueness_witness :
    PairInv sampleState ∧
    (PairInv (subscribePost sampleState 10 11).1 ∧
     PairInv (subscribeDelete sampleState 10 11).1 ∧
     PairInv (favoritePost sampleState 10 100).1 ∧
     PairInv (favoriteDelete sampleState 10 100).1 ∧
     PairInv (shoppingCartPost sampleState 10 100).1 ∧
     PairInv (shoppingCartDelete sampleState 10 100).1 ∧
     PairInv (runCreateRecipe sampleState 10 "n" "t" 3 [9] [(2, 8)]).1 ∧
     PairInv (runUpdateRecipe sampleState 100 none none none [9] [(2, 8)]).1 ∧
     PairInv (deleteRecipe sampleState 100).1 ∧
     (userExists sampleState 11 = true → (10, 11) ∈ sampleState.subs →
       subscribePost sampleState 10 11 =
         (sampleState, Resp.badRequest "already subscribed")) ∧
     (recipeExists sampleState 100 = true → (10, 100) ∈ sampleState.favorites →
       favoritePost sampleState 10 100 =
         (sampleState, Resp.badRequest "already favorited")) ∧
     (recipeExists sampleState 100 = true → (10, 100) ∈ sampleState.carts →
       shoppingCartPost sampleState 10 100 =
         (sampleState, Resp.badRequest "already in shopping cart"))) :=
  ⟨by decide,
   C2_pair_uniqueness sampleState 10 11 100 10 100 "n" "t" 3 none none none
     [9] [(2, 8)] (by decide)⟩

/-! ## C8 -/

theorem buildRecipeIngredientRows_none (st : State) (r : Nat)
    (ingrs : List (Nat × Nat))
    (h : ∃ p ∈ ingrs, findIngredient st p.1 = none) :
    buildRecipeIngredientRows st r ingrs = none := by
  induction ingrs with
  | nil => simp at h
  | cons q rest ih =>
      obtain ⟨p, hp, hnone⟩ := h
      unfold buildRecipeIngredientRows
      rcases List.mem_cons.mp hp with h1 | h1
      · subst h1
        rw [hnone]
      · rw [ih ⟨p, h1, hnone⟩]
        cases findIngredient st q.1 <;> rfl

/-- C8: when the submitted ingredient list contains an id with no
Ingredient row, recipe creation fails and the transaction leaves the
database state exactly as it was: no Recipe row and no RecipeIngredient
row is persisted. -/
theorem C8_create_atomic (st : State) (author : Nat) (name text : String)
    (ct : Nat) (tags : List Nat) (ingrs : List (Nat × Nat))
    (h : ∃ p ∈ ingrs, findIngredient st p.1 = none) :
    runCreateRecipe st author name text ct tags ingrs = (st, false) := by
  obtain ⟨p, hp, hn⟩ := h
  simp only [runCreateRecipe, createRecipe, tagsAndIngredientsSet]
  have hb : buildRecipeIngredientRows
      (State.mk st.users st.ingredients
        (st.recipes ++ [Recipe.mk (freshRecipeId st) author name text ct []])
        st.recipeIngredients st.subs st.favorites st.carts)
      (freshRecipeId st) ingrs = none :=
    buildRecipeIngredientRows_none _ _ ingrs ⟨p, hp, hn⟩
  rw [hb]

/-- Witness for C8 on `sampleState`: ingredient id 5 has no Ingredient
row. -/
theorem C8_create_atomic_witness :
    (∃ p ∈ [((5 : Nat), (8 : Nat))], findIngredient sampleState p.1 = none) ∧
    runCreateRecipe sampleState 10 "n" "t" 3 [9] [(5, 8)] =
      (sampleState, false) :=
  ⟨by decide,
   C8_create_atomic sampleState 10 "n" "t" 3 [9] [(5, 8)] (by decide)⟩

/-! ## C3 -/

theorem buildRecipeIngredientRows_some (st : State) (r : Nat) :
    ∀ (ingrs : List (Nat × Nat)) (rows : List RecipeIngredient),
      buildRecipeIngredientRows st r ingrs = some rows →
      rows.map (fun ri => (ri.ingredient, ri.amount)) = ingrs ∧
      ∀ ri ∈ rows, ri.recipe = r := by
  intro ingrs
  induction ingrs with
  | nil =>
      intro rows h
      simp only [buildRecipeIngredientRows, Option.some.injEq] at h
      subst h
      simp
  | cons q rest ih =>
      intro rows h
      unfold buildRecipeIngredientRows at h
      cases hf : findIngredient st q.1 with
      | none => rw [hf] at h; simp at h
      | some ing =>
          cases hb : buildRecipeIngredientRows st r rest with
          | none => rw [hf, hb] at h; simp at h
          | some rows' =>
              rw [hf, hb] at h
              simp only [Option.some.injEq] at h
              subst h
              obtain ⟨h1, h2⟩ := ih rows' hb
              constructor
              · simp only [List.map_cons, h1]
                rw [findIngredient_id st q.1 ing hf]
              · intro ri hri
                rcases List.mem_cons.mp hri with h | h
                · subst h; rfl
                · exact h2 ri h

theorem setRecipeTags_tags (st : State) (r : Nat) (tags : List Nat) :
    ∀ rcp ∈ (setRecipeTags st r tags).recipes, rcp.id = r →
      rcp.tags = tags.dedup := by
  intro rcp hm hid
  unfold setRecipeTags at hm
  simp only [List.mem_map] at hm
  obtain ⟨b, hb, heq⟩ := hm
  by_cases h : b.id = r
  · rw [← heq]
    simp [h]
  · rw [← heq] at hid
    simp [h] at hid

theorem update_kept_no_recipe_rows (st : State) (r : Nat) :
    (st.recipeIngredients.filter (fun ri =>
        ¬ (ri.recipe = r ∧ ri.ingredient ∈ attachedIngredientIds st r))).filter
      (fun ri => ri.recipe = r) = [] := by
  rw [List.filter_eq_nil_iff]
  intro ri hri
  simp only [List.mem_filter, decide_eq_true_eq] at hri
  obtain ⟨hmem, hpred⟩ := hri
  simp only [decide_eq_true_eq]
  intro hrec
  apply hpred
  refine ⟨hrec, ?_⟩
  exact List.mem_dedup.mpr (List.mem_map.mpr
    ⟨ri, List.mem_filter.mpr ⟨hmem, by simp [hrec]⟩, rfl⟩)

theorem tagsAndIngredientsSet_eq (st st' : State) (r : Nat) (tags : List Nat)
    (ingrs : List (Nat × Nat))
    (h : tagsAndIngredientsSet st r tags ingrs = some st') :
    ∃ rows, buildRecipeIngredientRows st r ingrs = some rows ∧
      st' = { setRecipeTags st r tags with
              recipeIngredients := st.recipeIngredients ++ rows } := by
  unfold tagsAndIngredientsSet at h
  cases hb : buildRecipeIngredientRows st r ingrs with
  | none => rw [hb] at h; exact absurd h (by simp)
  | some rows =>
      rw [hb] at h
      cases h
      exact ⟨rows, rfl, rfl⟩

/-- C3: after a successful recipe update, the (ingredient, amount) rows
attached to the recipe are exactly the submitted ingredient list (every
previously attached RecipeIngredient row of that recipe is gone), and the
recipe's tags equal exactly the submitted tag set. -/
theorem C3_update_replaces (st st' : State) (r : Nat)
    (oname otext : Option String) (oct : Option Nat)
    (tags : List Nat) (ingrs : List (Nat × Nat))
    (h : updateRecipe st r oname otext oct tags ingrs = some st') :
    (st'.recipeIngredients.filter (fun ri => ri.recipe = r)).map
        (fun ri => (ri.ingredient, ri.amount)) = ingrs ∧
    ∀ rcp ∈ st'.recipes, rcp.id = r → ∀ t : Nat, (t ∈ rcp.tags ↔ t ∈ tags) := by
  simp only [updateRecipe] at h
  obtain ⟨rows, hb, hst⟩ := tagsAndIngredientsSet_eq _ _ _ _ _ h
  obtain ⟨hmap, hrec⟩ := buildRecipeIngredientRows_some _ _ _ _ hb
  subst hst
  constructor
  · have h1 := update_kept_no_recipe_rows st r
    have h2 : rows.filter (fun ri => ri.recipe = r) = rows :=
      List.filter_eq_self.mpr (fun ri hri => by simp [hrec ri hri])
    show (((st.recipeIngredients.filter (fun ri =>
        ¬ (ri.recipe = r ∧ ri.ingredient ∈ attachedIngredientIds st r))
        ++ rows).filter (fun ri => ri.recipe = r)).map
        (fun ri => (ri.ingredient, ri.amount))) = ingrs
    rw [List.filter_append, h1, h2, List.nil_append, hmap]
  · intro rcp hm hid t
    have hr := setRecipeTags_tags _ r tags rcp hm hid
    rw [hr, List.mem_dedup]

/-- Witness for C3: updating recipe 100 of `sampleState` with tag list [9]
and ingredient list [(2, 8)] succeeds and yields `sampleUpdated`. -/
theorem C3_update_replaces_witness :
    updateRecipe sampleState 100 none none none [9] [(2, 8)] =
      some sampleUpdated ∧
    ((sampleUpdated.recipeIngredients.filter (fun ri => ri.recipe = 100)).map
        (fun ri => (ri.ingredient, ri.amount)) = [(2, 8)] ∧
     ∀ rcp ∈ sampleUpdated.recipes, rcp.id = 100 →
       ∀ t : Nat, (t ∈ rcp.tags ↔ t ∈ [9])) :=
  ⟨by decide,
   C3_update_replaces sampleState sampleUpdated 100 none none none [9]
     [(2, 8)] (by decide)⟩

/-! ## C1 -/

theorem cartRows_key_amounts (st : State) (u : Nat) (k : String × String) :
    ((cartRows st u).filter (fun row => (row.1, row.2.1) = k)).map
      (fun row => row.2.2) =
    ((st.recipeIngredients.filter (fun ri =>
        st.carts.contains (u, ri.recipe) &&
        ((findIngredient st ri.ingredient).map
          (fun ing => (ing.name, ing.measurement_unit)) == some k))).map
      (fun ri => ri.amount)) := by
  unfold cartRows
  generalize st.recipeIngredients = l
  induction l with
  | nil => rfl
  | cons ri l ih =>
      by_cases hc : (u, ri.recipe) ∈ st.carts
      · cases hf : findIngredient st ri.ingredient with
        | none =>
            simp [List.filter_cons, List.filterMap_cons, hc, hf] at ih ⊢
            exact ih
        | some ing =>
            by_cases hk : (ing.name, ing.measurement_unit) = k
            · simp [List.filter_cons, List.filterMap_cons, hc, hf, hk] at ih ⊢
              exact ih
            · simp [List.filter_cons, List.filterMap_cons, hc, hf, hk] at ih ⊢
              exact ih
      · simp [List.filter_cons, hc] at ih ⊢
        exact ih

theorem map_fst_pairs {α β : Type} (f : α → β) :
    ∀ keys : List α, (keys.map (fun k => (k, f k))).map Prod.fst = keys := by
  intro keys
  induction keys with
  | nil => rfl
  | cons a l ih => simp [ih]

theorem mem_cartRows_keys (st : State) (u : Nat) (k : String × String) :
    k ∈ (cartRows st u).map (fun row => (row.1, row.2.1)) ↔
      keyOccurs st u k = true := by
  unfold cartRows keyOccurs
  simp only [List.mem_map, List.mem_filterMap, List.mem_filter,
    List.any_eq_true, Bool.and_eq_true, Option.map_eq_some', beq_iff_eq]
  constructor
  · rintro ⟨row, ⟨ri, ⟨hmem, hc⟩, ing, hf, hrow⟩, hkey⟩
    subst hrow
    exact ⟨ri, hmem, hc, ing, hf, hkey⟩
  · rintro ⟨ri, hmem, hc, ing, hf, hkey⟩
    exact ⟨(ing.name, ing.measurement_unit, ri.amount),
      ⟨ri, ⟨hmem, hc⟩, ing, hf, rfl⟩, hkey⟩

/-- C1: the downloaded shopping list has one entry per distinct
(ingredient name, measurement unit) pair occurring in the user's cart
recipes (no duplicates, and no entry for a pair that does not occur), and
each entry's amount is the sum of the amounts of all RecipeIngredient rows
whose recipe is in the user's cart and whose ingredient carries that name
and unit. -/
theorem C1_shopping_cart_aggregation (st : State) (u : Nat) :
    ((downloadShoppingCart st u).map Prod.fst).Nodup ∧
    (∀ k : String × String,
      k ∈ (downloadShoppingCart st u).map Prod.fst ↔ keyOccurs st u k = true) ∧
    ∀ p ∈ downloadShoppingCart st u, p.2 = claimedAmount st u p.1 := by
  have hkeys : (downloadShoppingCart st u).map Prod.fst =
      ((cartRows st u).map (fun row => (row.1, row.2.1))).dedup := by
    unfold downloadShoppingCart
    exact map_fst_pairs _ _
  refine ⟨?_, ?_, ?_⟩
  · rw [hkeys]
    exact List.nodup_dedup _
  · intro k
    rw [hkeys, List.mem_dedup]
    exact mem_cartRows_keys st u k
  · intro p hp
    simp only [downloadShoppingCart, List.mem_map] at hp
    obtain ⟨k, hk, hpk⟩ := hp
    subst hpk
    show (((cartRows st u).filter (fun row => (row.1, row.2.1) = k)).map
      (fun row => row.2.2)).sum = claimedAmount st u k
    unfold claimedAmount
    exact congrArg List.sum (cartRows_key_amounts st u k)

/-! ## C4 -/

theorem truthyStr_eq_true (o : Option String) :
    truthyStr o = true ↔ o ≠ none ∧ o ≠ some "" := by
  cases o <;> simp [truthyStr]

theorem truthyNat_eq_true (o : Option Nat) :
    truthyNat o = true ↔ o ≠ none ∧ o ≠ some 0 := by
  cases o <;> simp [truthyNat]

theorem truthyList_eq_true {α : Type} (o : Option (List α)) :
    truthyList o = true ↔ o ≠ none ∧ o ≠ some [] := by
  cases o <;> simp [truthyList]

theorem validateRecipe_ok (obj : RecipeInput) (h : ¬ invalidInput obj) :
    validateRecipe obj = Except.ok obj := by
  unfold invalidInput at h
  push_neg at h
  obtain ⟨na, nb, ta, tb, ca, cb, ga, gb, ia, ib, hnd⟩ := h
  have h1 : truthyStr obj.name = true := (truthyStr_eq_true _).mpr ⟨na, nb⟩
  have h2 : truthyStr obj.text = true := (truthyStr_eq_true _).mpr ⟨ta, tb⟩
  have h3 : truthyNat obj.cooking_time = true :=
    (truthyNat_eq_true _).mpr ⟨ca, cb⟩
  have h4 : truthyList obj.tags = true := (truthyList_eq_true _).mpr ⟨ga, gb⟩
  have h5 : truthyList obj.ingredients = true :=
    (truthyList_eq_true _).mpr ⟨ia, ib⟩
  have h6 : ((obj.ingredients.getD []).map Prod.fst).length =
      ((obj.ingredients.getD []).map Prod.fst).dedup.length :=
    (length_eq_length_dedup_iff _).mpr hnd
  simp [validateRecipe, h1, h2, h3, h4, h5, h6]

theorem validateRecipe_error (obj : RecipeInput) (h : invalidInput obj) :
    ∃ e, validateRecipe obj = Except.error e := by
  unfold validateRecipe
  by_cases h1 : truthyStr obj.name = true
  · rw [if_neg (not_not_intro h1)]
    by_cases h2 : truthyStr obj.text = true
    · rw [if_neg (not_not_intro h2)]
      by_cases h3 : truthyNat obj.cooking_time = true
      · rw [if_neg (not_not_intro h3)]
        by_cases h4 : truthyList obj.tags = true
        · rw [if_neg (not_not_intro h4)]
          by_cases h5 : truthyList obj.ingredients = true
          · rw [if_neg (not_not_intro h5)]
            have hnd : ¬ ((obj.ingredients.getD []).map Prod.fst).Nodup := by
              unfold invalidInput at h
              rcases h with hx|hx|hx|hx|hx|hx|hx|hx|hx|hx|hx
              · rw [hx] at h1; simp [truthyStr] at h1
              · rw [hx] at h1; simp [truthyStr] at h1
              · rw [hx] at h2; simp [truthyStr] at h2
              · rw [hx] at h2; simp [truthyStr] at h2
              · rw [hx] at h3; simp [truthyNat] at h3
              · rw [hx] at h3; simp [truthyNat] at h3
              · rw [hx] at h4; simp [truthyList] at h4
              · rw [hx] at h4; simp [truthyList] at h4
              · rw [hx] at h5; simp [truthyList] at h5
              · rw [hx] at h5; simp [truthyList] at h5
              · exact hx
            exact ⟨_, if_pos
              (fun heq => hnd ((length_eq_length_dedup_iff _).mp heq))⟩
          · exact ⟨_, if_pos h5⟩
        · exact ⟨_, if_pos h4⟩
      · exact ⟨_, if_pos h3⟩
    · exact ⟨_, if_pos h2⟩
  · exact ⟨_, if_pos h1⟩

/-- C4: `validateRecipe` raises a validation error if and only if the
input is invalid in the claim's sense — name missing or empty, text
missing or empty, cooking_time missing or zero, tag list missing or
empty, ingredient list missing or empty, or two ingredient entries with
the same id — and otherwise returns the input unchanged. -/
theorem C4_validate_iff (obj : RecipeInput) :
    (validateRecipe obj = Except.ok obj ↔ ¬ invalidInput obj) ∧
    ((∃ e, validateRecipe obj = Except.error e) ↔ invalidInput obj) := by
  by_cases hi : invalidInput obj
  · obtain ⟨e, he⟩ := validateRecipe_error obj hi
    rw [he]
    exact ⟨⟨fun hx => Except.noConfusion hx, fun hn => (hn hi).elim⟩,
      ⟨fun _ => hi, fun _ => ⟨e, rfl⟩⟩⟩
  · rw [validateRecipe_ok obj hi]
    refine ⟨⟨fun _ => hi, fun _ => rfl⟩, ?_, fun hx => (hi hx).elim⟩
    rintro ⟨e, he⟩
    exact Except.noConfusion he

end Foodgram
